import Mathlib

/-!
Verification of the probo-gitlab webhook handler core.

This file is a shallow embedding of the handler's data model and
operations, translated from the JavaScript sources:

* `lib/GitLab.js` — provider client: `fetchProboYamlConfig`,
  `fetchYamlFile`, `postStatus`;
* `lib/GitLabHandler.js` — webhook handler: `mergeRequestHandler`,
  `pushHandler`, `buildStatusUpdateHandler` (its `stateMap` and
  `statusInfo`), `processWebhookEvent`, and the module-level
  `statusUpdateQueue` (an `async.queue` with concurrency 1);
* `lib/tokens.js` — `Tokens.checkTokens`, the credential probe and
  refresh routine.

Callback-threaded JavaScript is modelled by explicit result values:
a callback invoked as `cb(error)` becomes `Except JsError _`, a
callback invoked with neither error nor value (a terminal skip)
becomes `Option.none`, and a thrown `TypeError` becomes an explicit
`JsCrash` value.  Strings are Lean `String`s; where JavaScript indexes
code units (`substring`, `includes`, `indexOf`) we work on the
underlying character list `String.data`.
-/

namespace ProboGitLab

/-- `matchesAt needle hay` is true when `needle` occurs at the very
front of `hay` (character-by-character comparison, as JavaScript's
code-unit comparison does). -/
def matchesAt : List Char → List Char → Bool
  | [], _ => true
  | _ :: _, [] => false
  | a :: as, b :: bs => a == b && matchesAt as bs

/-- `hasSubseq needle hay` is true when `needle` occurs contiguously
somewhere in `hay`: the model of JavaScript's
`hay.includes(needle)` and of `hay.indexOf(needle) !== -1`. -/
def hasSubseq : List Char → List Char → Bool
  | n, [] => n.isEmpty
  | n, c :: t => matchesAt n (c :: t) || hasSubseq n t

/-- JavaScript `hay.includes(needle)` on strings. -/
def strIncludes (hay needle : String) : Bool :=
  hasSubseq needle.data hay.data

/-- JavaScript `s.substring(0, n)`: the first `n` code units of `s`
(the whole string when it is shorter than `n`). -/
def jsSubstringTo (s : String) (n : Nat) : String :=
  String.mk (s.data.take n)

/-- A JavaScript `Error` value as the handler callbacks observe it:
its `message` and, when the error carries an HTTP response
(`error.response`), that response's status code.  `responseStatus =
none` models an error without a `response` property (transport
failures, parse errors, plain `new Error(...)`). -/
structure JsError where
  message : String
  responseStatus : Option Nat := none
deriving Repr, DecidableEq

/-- A thrown JavaScript exception that escapes the handler (a crash,
as opposed to an error passed to a callback). -/
inductive JsCrash where
  | typeError (msg : String)
deriving Repr, DecidableEq

/-! ## Status state mapping and status info (buildStatusUpdateHandler)

From `GitLabHandler.js`, `buildStatusUpdateHandler`: the `stateMap`
object literal and the `statusInfo` construction. -/

/-- The `stateMap` object literal of `buildStatusUpdateHandler`:

```js
const stateMap = {
  running: 'running',
  pending: 'pending',
  success: 'success',
  error: 'failed',
  failure: 'failed',
};
```

A JavaScript property lookup `stateMap[update.state]` yields
`undefined` for any other key, modelled by `Option.none`. -/
def stateMap (s : String) : Option String :=
  if s = "running" then some "running"
  else if s = "pending" then some "pending"
  else if s = "success" then some "success"
  else if s = "error" then some "failed"
  else if s = "failure" then some "failed"
  else none

/-- The `update` object handed to `buildStatusUpdateHandler`. -/
structure StatusUpdate where
  state : String
  description : String
  context : String
  target_url : String
deriving Repr, DecidableEq

/-- The `statusInfo` object built by `buildStatusUpdateHandler` before
the task is pushed onto the status update queue.  `state` is `Option`
because `stateMap[update.state]` may be `undefined`. -/
structure StatusInfo where
  state : Option String
  description : String
  context : String
  target_url : String
deriving Repr, DecidableEq

/-- The `statusInfo` construction of `buildStatusUpdateHandler`:

```js
const statusInfo = {
  state: stateMap[update.state],
  description: update.description.substring(0, 140),
  context: update.context,
  target_url: update.target_url,
};
``` -/
def buildStatusInfo (u : StatusUpdate) : StatusInfo :=
  { state := stateMap u.state
    description := jsSubstringTo u.description 140
    context := u.context
    target_url := u.target_url }

/-! ## postStatus rejection handling (GitLab.js) -/

/-- First transition-conflict phrasing matched by `postStatus`. -/
def transitionConflictRun : String :=
  "Cannot transition status via :run from :running"

/-- Second transition-conflict phrasing matched by `postStatus`. -/
def transitionConflictEnqueue : String :=
  "Cannot transition status via :enqueue from :running"

/-- The provider rejection as seen in `postStatus`'s `.catch`: an
error object carrying a `description`. -/
structure StatusPostError where
  description : String
deriving Repr, DecidableEq

/-- The guard in `postStatus`'s `.catch` handler:

```js
if (err.description.includes('Cannot transition status via :run from :running')
   || err.description.includes('Cannot transition status via :enqueue from :running')) {
  return cb();
}
``` -/
def suppressTransitionConflict (e : StatusPostError) : Bool :=
  strIncludes e.description transitionConflictRun
    || strIncludes e.description transitionConflictEnqueue

/-- `postStatus` outcome, as a function of the provider call's result.
`.ok (some r)` models `cb(null, result)`; `.ok none` models the bare
`cb()` of the suppressed transition conflict; `.error e` models
`cb(err)`. -/
def postStatus (resp : Except StatusPostError String) :
    Except StatusPostError (Option String) :=
  match resp with
  | .ok r => .ok (some r)
  | .error e =>
    if suppressTransitionConflict e then .ok none else .error e

/-! ## Config resolution (GitLab.js: fetchYamlFile, fetchProboYamlConfig) -/

/-- The file object resolved by
`gitlab.RepositoryFiles.show(project.provider_id, path, sha)`:
its repository path and its (base64-encoded) content. -/
structure RepoFile where
  file_path : String
  content : String
deriving Repr, DecidableEq

/-- The result a `fetchYamlFile` callback delivers: either an error
(`cb(err)`), or `cb(null, settings)` where `settings` may be
`undefined` (file absent or empty YAML), modelled by `Option`.
The parsed YAML value itself is opaque to the handler; we represent
it by a `String`. -/
abbrev FetchResult := Except JsError (Option String)

/-- The error message built by `fetchYamlFile` when decoding or
parsing the fetched file throws:

```js
return cb(new Error(`Failed to parse ${file.file_path}: ${e.message}`));
``` -/
def parseErrorMessage (path msg : String) : String :=
  "Failed to parse " ++ path ++ ": " ++ msg

/-- `fetchYamlFile` from `GitLab.js`, as a function of the provider
call's result and of the decode-and-parse step (the `try` block
around `Buffer.from` and `yaml.safeLoad`, which either throws with a
message or returns a possibly-`undefined` settings value):

```js
gitlab.RepositoryFiles.show(project.provider_id, path, sha)
  .then(file => {
    if (file) {
      try { content = ...; settings = yaml.safeLoad(...); }
      catch (e) { return cb(new Error(`Failed to parse ${file.file_path}: ${e.message}`)); }
    }
    cb(null, settings);
  })
  .catch(err => cb(err));
``` -/
def fetchYamlFile (showResult : Except JsError (Option RepoFile))
    (parse : String → Except String (Option String)) : FetchResult :=
  match showResult with
  | .error e => .error e
  | .ok none => .ok none
  | .ok (some f) =>
    match parse f.content with
    | .error m => .error { message := parseErrorMessage f.file_path m }
    | .ok s => .ok s

/-- The fallback branch of `fetchProboYamlConfig`: the inner
`fetchYamlFile('.probo.yaml', ...)` callback.  The `Bool` component
records that path B was attempted.

```js
return this.fetchYamlFile('.probo.yaml', sha, project, (error, yaml) => {
  if (error) { return cb(error); }
  if (yaml) { return cb(null, yaml); }
  else { return cb(new Error('No .probo.yml file was found.')); }
});
``` -/
def fetchProboYamlFallback (rb : FetchResult) : Except JsError String × Bool :=
  match rb with
  | .error e => (.error e, true)
  | .ok (some y) => (.ok y, true)
  | .ok none => (.error { message := "No .probo.yml file was found." }, true)

/-- `fetchProboYamlConfig` from `GitLab.js`, as a function of the two
path lookups' results (`ra` for `.probo.yml`, `rb` for
`.probo.yaml`).  The `Bool` component records whether path B was
attempted.

```js
this.fetchYamlFile('.probo.yml', sha, project, (error, yaml) => {
  if (error) {
    if (!error.response || error.response.status !== 404) {
      return cb(error);
    }
  }
  if (!yaml) {
    return this.fetchYamlFile('.probo.yaml', sha, project, ...);
  }
  return cb(null, yaml);
});
``` -/
def fetchProboYamlConfig (ra rb : FetchResult) : Except JsError String × Bool :=
  match ra with
  | .error e =>
    if e.responseStatus = some 404 then fetchProboYamlFallback rb
    else (.error e, false)
  | .ok (some y) => (.ok y, false)
  | .ok none => fetchProboYamlFallback rb

/-! ## Webhook payloads and normalization (GitLabHandler.js) -/

/-- `object_attributes.last_commit` of a merge-request payload. -/
structure LastCommit where
  id : String
  url : String
deriving Repr, DecidableEq

/-- `object_attributes.source` of a merge-request payload. -/
structure MRSource where
  web_url : String
deriving Repr, DecidableEq

/-- The `object_attributes` of a GitLab merge-request webhook payload
(the fields the handler reads). -/
structure MRAttributes where
  id : Nat
  iid : Nat
  state : String
  title : String
  description : String
  source_branch : String
  target_project_id : Nat
  last_commit : LastCommit
  source : MRSource
deriving Repr, DecidableEq

/-- The `project` object of a GitLab webhook payload (the fields the
handler reads).  `namespaceName` models the payload's `namespace`
property (a Lean keyword). -/
structure ProjectInfo where
  id : Nat
  web_url : String
  path_with_namespace : String
  namespaceName : String
  name : String
deriving Repr, DecidableEq

/-- A GitLab merge-request webhook payload. -/
structure MergeRequestPayload where
  object_kind : String
  object_attributes : MRAttributes
  project : ProjectInfo
deriving Repr, DecidableEq

/-- One entry of `payload.commits` in a push payload. -/
structure PushCommit where
  id : String
  message : String
deriving Repr, DecidableEq

/-- A GitLab push webhook payload (the fields the handler reads). -/
structure PushPayload where
  ref : String
  after : String
  project : ProjectInfo
  commits : List PushCommit
deriving Repr, DecidableEq

/-- The `branch` component of a normalized request. -/
structure BranchInfo where
  name : String
  html_url : String
deriving Repr, DecidableEq

/-- The `pull_request` component of a normalized request. -/
structure PullRequestInfo where
  number : Nat
  id : Nat
  name : String
  description : String
  html_url : String
deriving Repr, DecidableEq

/-- The normalized `request` object the handlers build and pass to
`processWebhookEvent`.  `branch` and `pull_request` are optional as
in the source; `message` is set only by `pushHandler`. -/
structure NormalizedRequest where
  type : String
  name : String
  service : String
  branch : Option BranchInfo
  pull_request : Option PullRequestInfo
  slug : String
  owner : String
  repo : String
  repo_id : Nat
  sha : String
  commit_url : String
  message : Option String
deriving Repr, DecidableEq

/-- `mergeRequestHandler` from `GitLabHandler.js`.  A `none` result
models the terminal skip `return cb && cb()` taken when
`payload.object_attributes.state !== 'opened'` — the callback gets
neither an error nor a build, and no request object is built.
Otherwise the handler builds the request object passed on to
`processWebhookEvent`. -/
def mergeRequestHandler (p : MergeRequestPayload) : Option NormalizedRequest :=
  if p.object_attributes.state ≠ "opened" then none
  else some
    { type := "pull_request"
      name := p.object_attributes.title
      service := "gitlab"
      branch := some
        { name := p.object_attributes.source_branch
          html_url := p.project.web_url ++ "/tree/" ++ p.object_attributes.source_branch }
      pull_request := some
        { number := p.object_attributes.iid
          id := p.object_attributes.id
          name := p.object_attributes.title
          description := p.object_attributes.description
          html_url := p.object_attributes.source.web_url ++ "/merge_requests/"
            ++ toString p.object_attributes.iid }
      slug := p.project.path_with_namespace
      owner := p.project.namespaceName
      repo := p.project.name
      repo_id := p.object_attributes.target_project_id
      sha := p.object_attributes.last_commit.id
      commit_url := p.object_attributes.last_commit.url
      message := none }

/-- JavaScript `hay.replace(needle, repl)` for string arguments:
replaces the first occurrence of `needle` only. -/
def jsReplaceFirst (hay needle repl : List Char) : List Char :=
  match hay with
  | [] => if matchesAt needle [] then repl else []
  | c :: t =>
    if matchesAt needle (c :: t) then repl ++ (c :: t).drop needle.length
    else c :: jsReplaceFirst t needle repl

/-- `payload.ref.replace('refs/heads/', '')` in `pushHandler`. -/
def stripRefsHeads (ref : String) : String :=
  String.mk (jsReplaceFirst ref.data "refs/heads/".data [])

/-- `pushHandler` from `GitLabHandler.js` (the current revision, in
which the empty-commit-list guard reads):

```js
const lastMessage = ((payload.commits.length - 1) >= 0) ? payload.commits.length - 1 : 0;
if (!payload.commits[lastMessage]) {
  payload.commits[lastMessage].message = 'There was no message provided';
  ...
}
```

`payload.commits.length - 1 >= 0` is evaluated over JavaScript
numbers, so for an empty list `lastMessage` is `0`.  When
`payload.commits[lastMessage]` is `undefined`, the guard body
assigns `.message` on `undefined`, which throws a `TypeError`;
the thrown exception is modelled by the `.error` case.  Otherwise the
request object is built with `message: payload.commits[lastMessage].message`. -/
def pushHandler (p : PushPayload) : Except JsCrash NormalizedRequest :=
  let branch := stripRefsHeads p.ref
  let lastMessage := if p.commits.length ≥ 1 then p.commits.length - 1 else 0
  match p.commits.get? lastMessage with
  | none => .error (.typeError "Cannot set properties of undefined")
  | some c => .ok
    { type := "branch"
      name := "Branch " ++ branch
      service := "gitlab"
      branch := some
        { name := branch
          html_url := p.project.web_url ++ "/tree/" ++ branch }
      pull_request := none
      slug := p.project.path_with_namespace
      owner := p.project.namespaceName
      repo := p.project.name
      repo_id := p.project.id
      sha := p.after
      commit_url := p.project.web_url ++ "/commit/" ++ p.after
      message := some c.message }

/-- The branch filter of `processWebhookEvent` (after the project
lookup succeeded):

```js
if (request.type === 'branch') {
  if (request.message.indexOf('[build]') === -1) {
    return cb(null);
  }
}
this.processBuild(project, request, cb);
```

`.ok none` models `cb(null)` (event filtered, no build submitted);
`.ok (some req)` models proceeding to `processBuild` with `req`.
Reading `.indexOf` on an `undefined` message would throw, modelled by
the `.error` case. -/
def processWebhookEvent (req : NormalizedRequest) :
    Except JsCrash (Option NormalizedRequest) :=
  if req.type = "branch" then
    match req.message with
    | none => .error (.typeError "Cannot read properties of undefined")
    | some m =>
      if hasSubseq "[build]".data m.data then .ok (some req) else .ok none
  else .ok (some req)

/-- The composition a push event goes through: `pushHandler` builds
the request, then `processWebhookEvent` decides whether a build is
submitted. -/
def pushBuildDecision (p : PushPayload) :
    Except JsCrash (Option NormalizedRequest) :=
  match pushHandler p with
  | .error c => .error c
  | .ok req => processWebhookEvent req

/-! ## The status update queue (GitLabHandler.js)

```js
let statusUpdateQueue = async.queue(function worker(fn, cb) {
  fn(cb);
}, 1);
```

A module-level `async.queue` with concurrency 1: the worker runs one
task (`fn`) at a time and the next task is dequeued only after the
running task invokes its completion callback (`cb`).  We model an
execution of the queue as the trace of events it produces, given the
outcome each task's provider call will report to its callback
(`none` = success, `some msg` = error).  With concurrency 1 the trace
is deterministic: started-then-callback for each task, in submission
order. -/

/-- An observable event of the status update queue: task `i` was
started (handed to the worker), or task `i`'s completion callback
fired with the given outcome. -/
inductive QueueEvent where
  | started (i : Nat)
  | callbackFired (i : Nat) (err : Option String)
deriving Repr, DecidableEq

/-- The trace of the concurrency-1 queue running the tasks with the
given outcomes, numbering tasks from `i`. -/
def queueTraceFrom (i : Nat) : List (Option String) → List QueueEvent
  | [] => []
  | o :: rest =>
    QueueEvent.started i :: QueueEvent.callbackFired i o :: queueTraceFrom (i + 1) rest

/-- The trace of `statusUpdateQueue` on a list of submitted tasks,
given each task's outcome. -/
def statusQueueTrace (outcomes : List (Option String)) : List QueueEvent :=
  queueTraceFrom 0 outcomes

/-! ## Credential checking (lib/tokens.js, Tokens.checkTokens) -/

/-- The project's stored auth material (`project.service_auth`). -/
structure AuthMaterial where
  token : String
  refreshToken : String
deriving Repr, DecidableEq

/-- The probe loop of `checkTokens`:

```js
let iteration = 0;
let statusCode = 0;
do {
  iteration++;
  const tokenCheck = request('GET', 'https://gitlab.com/api/v4/projects', ...);
  statusCode = tokenCheck.statusCode;
} while (statusCode != 200 && iteration < 5);
```

`probes i` is the status code the `i`-th probe (1-indexed) would
return.  `runProbesAux probes i r` runs the loop from iteration `i`
with `r` further iterations allowed (`r = 5 - i`); it returns the
final `(iteration, statusCode)` pair. -/
def runProbesAux (probes : Nat → Nat) : Nat → Nat → Nat × Nat
  | i, 0 => (i, probes i)
  | i, r + 1 =>
    if probes i = 200 then (i, probes i) else runProbesAux probes (i + 1) r

/-- The whole probe loop: starts at iteration 1 with at most 5
iterations in total. -/
def runProbes (probes : Nat → Nat) : Nat × Nat :=
  runProbesAux probes 1 4

/-- `Tokens.checkTokens`, as a function of the probe outcomes, of the
refresh attempt's result, and of the stored auth material.  The
refresh attempt models the whole `try` block (token refresh request,
body parsing, and coordinator save): `.ok updated` is the `return
updatedTokens` path, `.error` is anything thrown, which lands in the
`catch` block that sends the alert mail and returns
`project.service_auth` unchanged.  The `Bool` component records
whether the alert was sent (`this.mail.send(vars)`). -/
def checkTokens (probes : Nat → Nat) (refresh : Except String AuthMaterial)
    (auth : AuthMaterial) : AuthMaterial × Bool :=
  let r := runProbes probes
  if r.2 ≠ 200 then
    match refresh with
    | .ok updated => (updated, false)
    | .error _ => (auth, true)
  else (auth, false)

/-! ## Theorems for the specification claims -/

/-- C3: the status state mapping applied before enqueue is a pure
function on the five known input states — `success ↦ success`,
`error ↦ failed`, `failure ↦ failed`, `running ↦ running`,
`pending ↦ pending` — and any other input state maps to
`undefined`/absent (`none`). -/
theorem stateMap_pure_function :
    stateMap "success" = some "success" ∧
    stateMap "error" = some "failed" ∧
    stateMap "failure" = some "failed" ∧
    stateMap "running" = some "running" ∧
    stateMap "pending" = some "pending" ∧
    ∀ s : String, s ≠ "running" → s ≠ "pending" → s ≠ "success" →
      s ≠ "error" → s ≠ "failure" → stateMap s = none := by
  refine ⟨by decide, by decide, by decide, by decide, by decide, ?_⟩
  intro s h1 h2 h3 h4 h5
  simp [stateMap, h1, h2, h3, h4, h5]

/-- Witness for C3: a concrete unknown state maps to `none`. -/
theorem stateMap_pure_function_witness : stateMap "canceled" = none :=
  stateMap_pure_function.2.2.2.2.2 "canceled" (by decide) (by decide)
    (by decide) (by decide) (by decide)

/-- C4: a provider rejection whose description matches one of the two
known transition-conflict phrasings makes `postStatus` invoke its
callback with no error (exactly as a success would); any other
rejection is passed to the callback as an error. -/
theorem postStatus_transition_conflict :
    (∀ e : StatusPostError, suppressTransitionConflict e = true →
      postStatus (.error e) = .ok none) ∧
    (∀ e : StatusPostError, suppressTransitionConflict e = false →
      postStatus (.error e) = .error e) := by
  constructor <;> intro e h <;> simp [postStatus, h]

/-- Witness for C4: a concrete transition-conflict rejection is
suppressed, and a concrete unrelated rejection is propagated. -/
theorem postStatus_transition_conflict_witness :
    postStatus (.error
      { description := "409 Cannot transition status via :run from :running" })
      = .ok none ∧
    postStatus (.error { description := "401 Unauthorized" })
      = .error { description := "401 Unauthorized" } :=
  ⟨postStatus_transition_conflict.1 _ (by decide),
   postStatus_transition_conflict.2 _ (by decide)⟩

/-- C8: the description sent to the provider is the input description
hard-truncated to at most 140 characters with no ellipsis added: a
200-character description is cut to exactly its first 140 characters
(`buildStatusInfo`'s result is a prefix of the input of length 140). -/
theorem buildStatusInfo_truncates (u : StatusUpdate)
    (h : u.description.data.length = 200) :
    (buildStatusInfo u).description.data = u.description.data.take 140 ∧
    (buildStatusInfo u).description.data.length = 140 ∧
    (buildStatusInfo u).description.data ++ u.description.data.drop 140
      = u.description.data := by
  refine ⟨rfl, ?_, ?_⟩
  · show (u.description.data.take 140).length = 140
    rw [List.length_take, h]
    omega
  · show u.description.data.take 140 ++ u.description.data.drop 140
      = u.description.data
    exact List.take_append_drop _ _

/-- Witness for C8: a concrete 200-character description is truncated
to exactly 140 characters. -/
theorem buildStatusInfo_truncates_witness :
    (buildStatusInfo
      { state := "success"
        description := String.mk (List.replicate 200 'a')
        context := "ci/tests"
        target_url := "http://x" }).description.data.length = 140 :=
  (buildStatusInfo_truncates _
    (by show (List.replicate 200 'a').length = 200
        rw [List.length_replicate])).2.1

/-- C2: if the fetch of `.probo.yml` (path A) fails with an error
that is not a 404, `fetchProboYamlConfig` propagates that error to
its callback and never attempts `.probo.yaml` (path B); path B is
attempted only when path A returned a 404 error or an empty result. -/
theorem fetchProboYamlConfig_fail_fast :
    (∀ (e : JsError) (rb : FetchResult), e.responseStatus ≠ some 404 →
      fetchProboYamlConfig (.error e) rb = (.error e, false)) ∧
    (∀ ra rb : FetchResult, (fetchProboYamlConfig ra rb).2 = true →
      ra = .ok none ∨ ∃ e, ra = .error e ∧ e.responseStatus = some 404) := by
  constructor
  · intro e rb h
    simp [fetchProboYamlConfig, h]
  · intro ra rb h
    match ra with
    | .error e =>
      by_cases h404 : e.responseStatus = some 404
      · exact Or.inr ⟨e, rfl, h404⟩
      · simp [fetchProboYamlConfig, h404] at h
    | .ok (some y) => simp [fetchProboYamlConfig] at h
    | .ok none => exact Or.inl rfl

/-- Witness for C2: a transport error without a response (no 404) is
propagated unchanged and path B is not attempted, even though path B
would have succeeded. -/
theorem fetchProboYamlConfig_fail_fast_witness :
    fetchProboYamlConfig (.error { message := "ECONNRESET" })
      (.ok (some "cfg"))
      = (.error { message := "ECONNRESET" }, false) :=
  fetchProboYamlConfig_fail_fast.1 _ _ (by decide)

/-- C10 counterexample: when both paths yield nothing the error
message produced is `"No .probo.yml file was found."`, which is not
the message `"No config file was found."` stated by the claim. -/
theorem noConfigMessage_counterexample :
    fetchProboYamlConfig (.ok none) (.ok none)
      = (.error { message := "No .probo.yml file was found." }, true) ∧
    ("No .probo.yml file was found." : String)
      ≠ "No config file was found." :=
  ⟨rfl, by decide⟩

/-- C10 amended: when both config paths (path A `.probo.yml`, then
path B `.probo.yaml`) yield nothing, config resolution produces a
not-found error whose message is exactly
`"No .probo.yml file was found."`. -/
theorem fetchProboYamlConfig_not_found (ra : FetchResult)
    (h : ra = .ok none ∨ ∃ e, ra = .error e ∧ e.responseStatus = some 404) :
    fetchProboYamlConfig ra (.ok none)
      = (.error { message := "No .probo.yml file was found." }, true) := by
  rcases h with h | ⟨e, he, h404⟩
  · subst h; rfl
  · subst he
    simp [fetchProboYamlConfig, h404, fetchProboYamlFallback]

/-- Witness for C10 amended: both paths empty at a concrete input. -/
theorem fetchProboYamlConfig_not_found_witness :
    fetchProboYamlConfig (.ok none) (.ok none)
      = (.error { message := "No .probo.yml file was found." }, true) :=
  fetchProboYamlConfig_not_found (.ok none) (Or.inl rfl)

/-- C9: when a fetched config file's content fails to parse,
`fetchYamlFile` produces an error whose message is exactly
`Failed to parse <path>: <underlying parser message>`; in particular
bad YAML at `.probo.yml` yields
`Failed to parse .probo.yml: <underlying parser message>` verbatim. -/
theorem fetchYamlFile_parse_error (f : RepoFile)
    (parse : String → Except String (Option String)) (m : String)
    (h : parse f.content = .error m) :
    fetchYamlFile (.ok (some f)) parse
      = .error { message := "Failed to parse " ++ f.file_path ++ ": " ++ m } ∧
    (f.file_path = ".probo.yml" →
      fetchYamlFile (.ok (some f)) parse
        = .error { message := "Failed to parse .probo.yml: " ++ m }) := by
  have h1 : fetchYamlFile (.ok (some f)) parse
      = .error { message := parseErrorMessage f.file_path m } := by
    simp [fetchYamlFile, h]
  constructor
  · exact h1
  · intro hp
    rw [h1, hp]
    rfl

/-- Witness for C9: a concrete malformed file at `.probo.yml` yields
the exact message. -/
theorem fetchYamlFile_parse_error_witness :
    fetchYamlFile
      (.ok (some { file_path := ".probo.yml", content := "c3RlcHM6" }))
      (fun _ => .error "bad indentation of a mapping entry at line 3, column 3")
      = .error { message :=
          "Failed to parse .probo.yml: bad indentation of a mapping entry at line 3, column 3" } :=
  (fetchYamlFile_parse_error
    { file_path := ".probo.yml", content := "c3RlcHM6" }
    (fun _ => .error "bad indentation of a mapping entry at line 3, column 3")
    "bad indentation of a mapping entry at line 3, column 3" rfl).2 rfl

/-- C5: for every merge-request payload whose `state` is not exactly
`"opened"`, `mergeRequestHandler` returns the terminal skip `none`:
no request object is constructed and nothing is passed on to the
build pipeline. -/
theorem mergeRequestHandler_skips_non_opened (p : MergeRequestPayload)
    (h : p.object_attributes.state ≠ "opened") :
    mergeRequestHandler p = none := by
  simp [mergeRequestHandler, h]

/-- Witness for C5: a concrete closed merge request is skipped. -/
theorem mergeRequestHandler_skips_non_opened_witness :
    mergeRequestHandler
      { object_kind := "merge_request"
        object_attributes :=
          { id := 33015959
            iid := 2
            state := "closed"
            title := "change for feature branch"
            description := ""
            source_branch := "feature"
            target_project_id := 33704441
            last_commit :=
              { id := "6642b53392e3f2ef452249f4cee903aedabd0369"
                url := "https://gitlab.com/proboci/proboci/commit/6642b533" }
            source := { web_url := "https://gitlab.com/proboci/testrepo" } }
        project :=
          { id := 1234
            web_url := "https://gitlab.com/proboci/testrepo"
            path_with_namespace := "proboci/testrepo"
            namespaceName := "proboci"
            name := "testrepo" } } = none :=
  mergeRequestHandler_skips_non_opened _ (by decide)

/-- C6 (code bug): on a push payload with an empty commit list the
handler does not substitute the sentinel message — the guard body
assigns `.message` on an `undefined` array element and throws a
`TypeError`, crashing instead of continuing; on a non-empty commit
list whose latest message lacks `[build]` the event is filtered and
no build is submitted. -/
theorem pushHandler_empty_commits_crash :
    pushBuildDecision
      { ref := "refs/heads/main"
        after := "abc123"
        project :=
          { id := 1234
            web_url := "https://gitlab.com/proboci/testrepo"
            path_with_namespace := "proboci/testrepo"
            namespaceName := "proboci"
            name := "testrepo" }
        commits := [] }
      = .error (.typeError "Cannot set properties of undefined") ∧
    pushBuildDecision
      { ref := "refs/heads/main"
        after := "abc123"
        project :=
          { id := 1234
            web_url := "https://gitlab.com/proboci/testrepo"
            path_with_namespace := "proboci/testrepo"
            namespaceName := "proboci"
            name := "testrepo" }
        commits := [{ id := "abc123", message := "regular commit" }] }
      = .ok none :=
  ⟨rfl, rfl⟩

/-- The queue trace of `n` tasks has `2 * n` events: one start and
one callback per task. -/
theorem queueTraceFrom_length (o : List (Option String)) :
    ∀ i, (queueTraceFrom i o).length = 2 * o.length := by
  induction o with
  | nil => intro i; rfl
  | cons hd tl ih =>
    intro i
    simp only [queueTraceFrom, List.length_cons, ih]
    omega

/-- Position of each event in the queue trace: task number `i + k`
is started at position `2 * k` and its callback fires at position
`2 * k + 1`. -/
theorem queueTraceFrom_get (o : List (Option String)) :
    ∀ (i k : Nat) (h : k < o.length),
      (queueTraceFrom i o).get? (2 * k) = some (.started (i + k)) ∧
      (queueTraceFrom i o).get? (2 * k + 1)
        = some (.callbackFired (i + k) (o.get ⟨k, h⟩)) := by
  induction o with
  | nil => intro i k h; exact absurd h (by simp)
  | cons hd tl ih =>
    intro i k h
    match k with
    | 0 => exact ⟨rfl, rfl⟩
    | k + 1 =>
      have h' : k < tl.length := Nat.lt_of_succ_lt_succ h
      have H := ih (i + 1) k h'
      have eI : i + (k + 1) = (i + 1) + k := by omega
      constructor
      · show (queueTraceFrom (i + 1) tl).get? (2 * k)
          = some (QueueEvent.started (i + (k + 1)))
        rw [eI]
        exact H.1
      · show (queueTraceFrom (i + 1) tl).get? (2 * k + 1)
          = some (QueueEvent.callbackFired (i + (k + 1)) (tl.get ⟨k, h'⟩))
        rw [eI]
        exact H.2

/-- C1: the status dispatch queue is a single concurrency-1 queue.
In its execution trace, task `k` is started at position `2k` and its
completion callback fires at position `2k + 1`, for every list of
task outcomes — so tasks run strictly in submission order, a task is
started only after the previous task's callback has fired (the trace
has no other events: its length is `2n`), and every task's callback
fires whatever the outcomes of the earlier tasks were, so a failure
of task `k` never prevents task `k + 1` from executing. -/
theorem statusUpdateQueue_serializes (outcomes : List (Option String)) :
    (statusQueueTrace outcomes).length = 2 * outcomes.length ∧
    (∀ (k : Nat) (h : k < outcomes.length),
      (statusQueueTrace outcomes).get? (2 * k) = some (.started k) ∧
      (statusQueueTrace outcomes).get? (2 * k + 1)
        = some (.callbackFired k (outcomes.get ⟨k, h⟩))) ∧
    (∀ (k : Nat) (h : k + 1 < outcomes.length),
      2 * k + 1 < 2 * (k + 1) ∧
      (statusQueueTrace outcomes).get? (2 * k + 1)
        = some (.callbackFired k (outcomes.get ⟨k, Nat.lt_of_succ_lt h⟩)) ∧
      (statusQueueTrace outcomes).get? (2 * (k + 1))
        = some (.started (k + 1))) := by
  refine ⟨queueTraceFrom_length outcomes 0, ?_, ?_⟩
  · intro k h
    have H := queueTraceFrom_get outcomes 0 k h
    simpa using H
  · intro k h
    refine ⟨by omega, ?_, ?_⟩
    · have H := queueTraceFrom_get outcomes 0 k (Nat.lt_of_succ_lt h)
      simpa using H.2
    · have H := queueTraceFrom_get outcomes 0 (k + 1) h
      simpa using H.1

/-- Witness for C1: with two tasks where the first fails, the first
task's error callback fires at position 1 and only then, at position
2, is the second task started; the second task still completes. -/
theorem statusUpdateQueue_serializes_witness :
    (statusQueueTrace [some "boom", none]).get? 1
      = some (.callbackFired 0 (some "boom")) ∧
    (statusQueueTrace [some "boom", none]).get? 2
      = some (.started 1) ∧
    (statusQueueTrace [some "boom", none]).get? 3
      = some (.callbackFired 1 none) := by
  have H := statusUpdateQueue_serializes [some "boom", none]
  exact ⟨(H.2.1 0 (by decide)).2, (H.2.1 1 (by decide)).1,
    (H.2.1 1 (by decide)).2⟩

/-- The probe loop runs at most `r + 1` further iterations starting
from iteration `i`. -/
theorem runProbesAux_le (probes : Nat → Nat) :
    ∀ (r i : Nat), (runProbesAux probes i r).1 ≤ i + r := by
  intro r
  induction r with
  | zero => intro i; simp [runProbesAux]
  | succ r ih =>
    intro i
    by_cases h : probes i = 200
    · simp only [runProbesAux, h, if_pos]
      omega
    · simp only [runProbesAux, h, if_neg, if_false]
      have := ih (i + 1)
      omega

/-- The probe loop stops at the first iteration whose probe returns
200 (when one exists within the allowed iterations). -/
theorem runProbesAux_first_success (probes : Nat → Nat) :
    ∀ (r i k : Nat), i ≤ k → k ≤ i + r → probes k = 200 →
      (∀ j, i ≤ j → j < k → probes j ≠ 200) →
      runProbesAux probes i r = (k, 200) := by
  intro r
  induction r with
  | zero =>
    intro i k hik hki h200 _
    have hk : k = i := by omega
    subst hk
    simp [runProbesAux, h200]
  | succ r ih =>
    intro i k hik hki h200 hmin
    by_cases hik' : i = k
    · subst hik'
      simp [runProbesAux, h200]
    · have hlt : i < k := Nat.lt_of_le_of_ne hik hik'
      have hne : probes i ≠ 200 := hmin i Nat.le.refl hlt
      show (if probes i = 200 then (i, probes i)
        else runProbesAux probes (i + 1) r) = (k, 200)
      rw [if_neg hne]
      exact ih (i + 1) k hlt (by omega) h200
        (fun j hj hjk => hmin j (by omega) hjk)

/-- C7: `checkTokens` issues at most 5 probes, stops probing at the
first probe that returns HTTP 200, returns the stored auth material
unchanged (and sends no alert) when a probe succeeds, and when no
probe succeeds and the refresh attempt throws it sends the alert and
still returns the original, unchanged auth material. -/
theorem checkTokens_spec (probes : Nat → Nat)
    (refresh : Except String AuthMaterial) (auth : AuthMaterial) :
    (runProbes probes).1 ≤ 5 ∧
    (∀ k, 1 ≤ k → k ≤ 5 → probes k = 200 →
      (∀ j, 1 ≤ j → j < k → probes j ≠ 200) →
      runProbes probes = (k, 200)) ∧
    ((runProbes probes).2 = 200 →
      checkTokens probes refresh auth = (auth, false)) ∧
    ((runProbes probes).2 ≠ 200 → ∀ e, refresh = .error e →
      checkTokens probes refresh auth = (auth, true)) := by
  refine ⟨?_, ?_, ?_, ?_⟩
  · have := runProbesAux_le probes 4 1
    simpa [runProbes] using this
  · intro k h1 h5 h200 hmin
    exact runProbesAux_first_success probes 4 1 k h1 (by omega) h200 hmin
  · intro h
    simp [checkTokens, h]
  · intro h e he
    simp [checkTokens, h, he]

/-- Witness for C7: with every probe failing (401) and a refresh that
throws, the alert is sent and the original auth material is returned
unchanged; moreover a first-probe success stops after one probe. -/
theorem checkTokens_spec_witness :
    checkTokens (fun _ => 401) (.error "invalid_grant")
      { token := "t0", refreshToken := "r0" }
      = ({ token := "t0", refreshToken := "r0" }, true) ∧
    runProbes (fun _ => 200) = (1, 200) := by
  constructor
  · exact (checkTokens_spec (fun _ => 401) (.error "invalid_grant")
      { token := "t0", refreshToken := "r0" }).2.2.2 (by decide)
      "invalid_grant" rfl
  · exact (checkTokens_spec (fun _ => 200) (.ok
      { token := "t0", refreshToken := "r0" })
      { token := "t0", refreshToken := "r0" }).2.1 1 (by decide) (by decide)
      rfl (fun j hj hjk => absurd (Nat.lt_of_lt_of_le hjk hj) (by omega))

end ProboGitLab
